import Mathlib

/-
Verification of the scene-converter module (scripts/tools.py): the
coordinate-system and matrix-layout conversion handing cameras, meshes and
lights from the host application (Blender, via bpy) to the target rendering
library (GlslViewer, via its python bindings).

The embedding below translates the module's functions into pure Lean
definitions.  Scalars are modelled as rationals: every operation performed by
the module on coordinates is negation or plain copying, so the claims are
exact in any ordered field.  Matrices are `Matrix (Fin 4) (Fin 4) ℚ`,
addressed `[row][col]` exactly as the numpy / mathutils matrices in the
source.  The target library's opaque value types (gl.Camera, gl.Mesh,
gl.Light) are not part of the python source; following the spec's interface
description they are modelled as records that store the arguments handed to
their setters, in call order.
-/

abbrev Scalar := ℚ

/-- A 4x4 matrix addressed `[row][col]`, as the numpy arrays in the source. -/
abbrev Mat4 := Matrix (Fin 4) (Fin 4) Scalar

/-- A 3-component vector indexed `[0] [1] [2]`, as mathutils vectors. -/
abbrev Vec3 := Fin 3 → Scalar

/-- Modelled from the spec: the host's matrix inversion (`Matrix.inverted()` of
mathutils, not part of this repository's sources).  The spec states the view
transform is "inverted from the source view matrix"; mathematical matrix
inversion is realised computably as adjugate over determinant, which agrees
with the inverse on the invertible matrices the spec assumes. -/
def inv4 (A : Mat4) : Mat4 := (A.det)⁻¹ • A.adjugate

/-- Modelled from the spec: the target library's Camera value (gl.Camera is a
native binding, not in the python sources).  Per the spec it exposes two
sixteen-scalar-argument transform setters, a viewport-size setter taking the
pixel dimensions, and a scale setter; the record stores the arguments handed
to each setter.  `transformArgs r c` is the (4*r+c)-th argument of
`setTransformMatrix` (arguments grouped in fours, group `r` = destination
row `r`), and likewise `projectionArgs` for `setProjection`. -/
structure Camera where
  transformArgs : Mat4
  projectionArgs : Mat4
  viewport : ℕ × ℕ
  scale : Scalar

/-- The sixteen arguments handed to `cam.setTransformMatrix`, transcribed from
the source (tools.py lines 38-43): destination row `r` receives
`view_matrix[0][r], view_matrix[2][r], view_matrix[1][r], view_matrix[3][r]`. -/
def setTransformMatrixArgs (view_matrix : Mat4) : Mat4 :=
  Matrix.of
    ![![view_matrix 0 0, view_matrix 2 0, view_matrix 1 0, view_matrix 3 0],
      ![view_matrix 0 1, view_matrix 2 1, view_matrix 1 1, view_matrix 3 1],
      ![view_matrix 0 2, view_matrix 2 2, view_matrix 1 2, view_matrix 3 2],
      ![view_matrix 0 3, view_matrix 2 3, view_matrix 1 3, view_matrix 3 3]]

/-- The sixteen arguments handed to `cam.setProjection`, transcribed from the
source (tools.py lines 44-49): destination row `r` receives
`projection_matrix[0][r], projection_matrix[1][r], projection_matrix[2][r],
projection_matrix[3][r]`. -/
def setProjectionArgs (projection_matrix : Mat4) : Mat4 :=
  Matrix.of
    ![![projection_matrix 0 0, projection_matrix 1 0, projection_matrix 2 0, projection_matrix 3 0],
      ![projection_matrix 0 1, projection_matrix 1 1, projection_matrix 2 1, projection_matrix 3 1],
      ![projection_matrix 0 2, projection_matrix 1 2, projection_matrix 2 2, projection_matrix 3 2],
      ![projection_matrix 0 3, projection_matrix 1 3, projection_matrix 2 3, projection_matrix 3 3]]

/-- The spec's inverse column mapping, written from the spec's words (not from
the source): re-assemble sixteen emitted values by swapping columns 1 and 2
back, used to state the axis-swap involution check. -/
def unswapCols (a : Mat4) : Mat4 :=
  Matrix.of fun r => ![a r 0, a r 2, a r 1, a r 3]

/-- Host render settings (bpy.context.scene.render), the fields the source
reads. -/
structure RenderSettings where
  resolution_x : ℕ
  resolution_y : ℕ
  pixel_aspect_x : Scalar
  pixel_aspect_y : Scalar

/-- Host scene (bpy.context.scene), restricted to the field the source reads. -/
structure Scene where
  render : RenderSettings

/-- Modelled from the spec: the host's ambient global context (bpy.context).
The python function reads it as a module-level global; the pure embedding
passes it as an explicit first parameter. -/
structure Context where
  scene : Scene

/-- A live viewport/region source (bpy.types.RegionView3D), restricted to the
two matrices the source reads. -/
structure RegionView3D where
  view_matrix : Mat4
  window_matrix : Mat4

/-- Modelled from the spec: a scene camera object (bpy.types.Object).  Its
`calc_matrix_camera` method is a host API ("the host's camera-projection
formula parameterized by output resolution and pixel aspect ratios" per the
spec) and is represented as an opaque per-object function of those four
parameters. -/
structure CamObject where
  matrix_world : Mat4
  calc_matrix_camera : ℕ → ℕ → Scalar → Scalar → Mat4

/-- The runtime type test of the source (`isinstance` on RegionView3D and
Object) modelled as a tagged union; `other` covers every unrecognized value,
carrying the text its f-string interpolation would print. -/
inductive CameraSource where
  | regionView3D (r : RegionView3D)
  | object (o : CamObject)
  | other (text : String)

/-- Embedding of `bl2veraCamera` (tools.py lines 15-57).  The result pairs the
lines printed (the f-string report on invalid input) with the optional Camera
(`none` embeds python's `None`).  The camera is built exactly as the source
does: the transform setter receives the sixteen view-matrix arguments of
`setTransformMatrixArgs`, applied to the inverted source view matrix; the
projection setter receives the sixteen arguments of `setProjectionArgs`;
`setViewport` receives the caller-supplied dimensions and `setScale` the
constant 0.5. -/
def bl2veraCamera (ctx : Context) (source : CameraSource) (img_dims : ℕ × ℕ) :
    List String × Option Camera :=
  match source with
  | CameraSource.regionView3D r =>
      let projection_matrix := r.window_matrix
      let view_matrix := inv4 r.view_matrix
      ([], some
        { transformArgs := setTransformMatrixArgs view_matrix
          projectionArgs := setProjectionArgs projection_matrix
          viewport := img_dims
          scale := 1/2 })
  | CameraSource.object o =>
      let render := ctx.scene.render
      let view_matrix := inv4 o.matrix_world
      let projection_matrix :=
        o.calc_matrix_camera render.resolution_x render.resolution_y
          render.pixel_aspect_x render.pixel_aspect_y
      ([], some
        { transformArgs := setTransformMatrixArgs view_matrix
          projectionArgs := setProjectionArgs projection_matrix
          viewport := img_dims
          scale := 1/2 })
  | CameraSource.other text =>
      (["INVALID CAMERA SOURCE: " ++ text], none)

/-- A host mesh vertex (bpy vertex), restricted to the fields the source
reads: local-space coordinates `co` and local-space `normal`. -/
structure BlVertex where
  co : Vec3
  normal : Vec3
deriving DecidableEq

/-- A triangulated loop (bpy loop triangle): three vertex indices. -/
structure LoopTriangle where
  vertices : Fin 3 → ℕ
deriving DecidableEq

/-- One per-corner entry of the active UV layer's `data` array. -/
structure UVDatum where
  uv : Fin 2 → Scalar
deriving DecidableEq

/-- Default UV entry, used only to state indexed reads totally. -/
def uv0 : UVDatum := ⟨![0, 0]⟩

/-- The mesh data block (bpy_mesh.data) after `calc_loop_triangles()`:
vertices, triangulated loops, and the active UV layer's data when such a
layer exists (`uv_layers.active` is `none` otherwise). -/
structure BlMeshData where
  vertices : List BlVertex
  loop_triangles : List LoopTriangle
  uv_layers_active : Option (List UVDatum)
deriving DecidableEq

/-- The host mesh handed to `bl2veraMesh`: its world matrix and its data
block. -/
structure BlMesh where
  matrix_world : Mat4
  data : BlMeshData

/-- Modelled from the spec: the target library's Mesh value (gl.Mesh is a
native binding, not in the python sources).  Per the spec it exposes
append-vertex, append-normal, append-texcoord, append-index, a vertex-count
query, and a tangent-computation trigger; the record stores the appended data
in call order, and a flag recording whether the (library-internal) tangent
computation was triggered. -/
structure Mesh where
  vertices : List Vec3
  normals : List Vec3
  indices : List ℕ
  texcoords : List (Scalar × Scalar)
  tangentsComputed : Bool
deriving DecidableEq

/-- gl.Mesh(): the freshly constructed empty mesh. -/
def Mesh.new : Mesh :=
  { vertices := [], normals := [], indices := [], texcoords := [], tangentsComputed := false }

/-- mesh.addVertex(x, y, z). -/
def Mesh.addVertex (m : Mesh) (x y z : Scalar) : Mesh :=
  { m with vertices := m.vertices ++ [![x, y, z]] }

/-- mesh.addNormal(x, y, z). -/
def Mesh.addNormal (m : Mesh) (x y z : Scalar) : Mesh :=
  { m with normals := m.normals ++ [![x, y, z]] }

/-- mesh.addIndex(i). -/
def Mesh.addIndex (m : Mesh) (i : ℕ) : Mesh :=
  { m with indices := m.indices ++ [i] }

/-- mesh.addTexCoord(u, v). -/
def Mesh.addTexCoord (m : Mesh) (u v : Scalar) : Mesh :=
  { m with texcoords := m.texcoords ++ [(u, v)] }

/-- mesh.getVerticesTotal(). -/
def Mesh.getVerticesTotal (m : Mesh) : ℕ := m.vertices.length

/-- mesh.computeTangents(): the tangent computation is delegated entirely to
the target library; the model records that it was triggered. -/
def Mesh.computeTangents (m : Mesh) : Mesh := { m with tangentsComputed := true }

/-- One iteration of the vertex loop of `bl2veraMesh` (tools.py lines 64-72):
add the vertex coordinates negated on all three axes, then the vertex normal
negated on all three axes. -/
def vertexStep (mesh : Mesh) (v : BlVertex) : Mesh :=
  let p := v.co
  let mesh := mesh.addVertex (-(p 0)) (-(p 1)) (-(p 2))
  let n := v.normal
  mesh.addNormal (-(n 0)) (-(n 1)) (-(n 2))

/-- One iteration of the triangle loop of `bl2veraMesh` (tools.py lines
79-82): add the three vertex indices of the loop triangle in order. -/
def triStep (mesh : Mesh) (tri : LoopTriangle) : Mesh :=
  ((mesh.addIndex (tri.vertices 0)).addIndex (tri.vertices 1)).addIndex (tri.vertices 2)

/-- One iteration of the texcoord loop of `bl2veraMesh` (tools.py lines
85-87): read entry `i` of the active UV layer's data array (an out-of-range
read raises in python, embedded as `none`) and add its two components. -/
def texStep (uvdata : List UVDatum) (mesh : Mesh) (i : ℕ) : Option Mesh :=
  (uvdata[i]?).map fun d => mesh.addTexCoord (d.uv 0) (d.uv 1)

/-- Embedding of `bl2veraMesh` (tools.py lines 59-90).  The world matrix `W`
(and the normal matrix derived from it in the source) is bound and never
used, exactly as in the source.  `none` embeds an uncaught python fault (an
out-of-range UV read); every other path returns the built mesh. -/
def bl2veraMesh (bl_mesh : BlMesh) : Option Mesh :=
  let mesh := Mesh.new
  let _W := bl_mesh.matrix_world
  let mesh := bl_mesh.data.vertices.foldl vertexStep mesh
  let mesh := bl_mesh.data.loop_triangles.foldl triStep mesh
  match bl_mesh.data.uv_layers_active with
  | some uvdata =>
      ((List.range mesh.getVerticesTotal).foldlM (texStep uvdata) mesh).map Mesh.computeTangents
  | none => some mesh

/-- The host light handed to `bl2veraLight`: its world matrix and its local
location. -/
structure BlLight where
  matrix_world : Mat4
  location : Vec3

/-- Modelled from the spec: the target library's Light value (gl.Light is a
native binding, not in the python sources).  Per the spec it exposes a
position setter; the record stores the three arguments handed to it. -/
structure Light where
  position : Vec3
deriving DecidableEq

/-- Embedding of `bl2veraLight` (tools.py lines 92-99).  The world matrix is
fetched and never used, exactly as in the source; the position setter
receives `(-loc[0], -loc[2], -loc[1])`. -/
def bl2veraLight (bl_light : BlLight) : Light :=
  let _W := bl_light.matrix_world
  let loc := bl_light.location
  { position := ![-(loc 0), -(loc 2), -(loc 1)] }

/-- Modelled from the spec: the host services `file_exist` calls into, neither
of which is in the python sources.  `abspath` is the host's path-variable
expansion (bpy.path.abspath), which may raise; `openRead` is opening a path
for reading, which returns a file-handle id on success and raises (missing
file, permission error, ...) otherwise.  Errors are strings, mirroring
python's untyped `except:`. -/
structure HostFS where
  abspath : String → Except String String
  openRead : String → Except String ℕ

/-- Embedding of `file_exist` (tools.py lines 101-107).  The open-handle table
is passed as explicit state (`openHandles`, the ids currently open); a
successful open pushes the new handle and the immediately following
`file.close()` erases it; any raise from expansion or open is caught by the
bare `except:` and collapsed to `false`. -/
def file_exist (host : HostFS) (filename : String) (openHandles : List ℕ) :
    Bool × List ℕ :=
  match host.abspath filename with
  | Except.error _ => (false, openHandles)
  | Except.ok p =>
      match host.openRead p with
      | Except.error _ => (false, openHandles)
      | Except.ok h =>
          let afterOpen := h :: openHandles
          let afterClose := afterOpen.erase h
          (true, afterClose)

/-- Whether expanding then opening the path succeeds, the reference outcome
`file_exist` is measured against. -/
def openSucceeds (host : HostFS) (filename : String) : Bool :=
  match (host.abspath filename).bind host.openRead with
  | Except.ok _ => true
  | Except.error _ => false

/-- Sample ambient context, used to instantiate camera claims whose result
does not depend on it. -/
def ctx0 : Context := ⟨⟨⟨1920, 1080, 1, 1⟩⟩⟩

/-- A 4x4 matrix whose sixteen entries are pairwise distinct (entry (r, c) is
4r+c), separating the candidate index mappings from one another. -/
def seqMat : Mat4 :=
  Matrix.of
    ![![0, 1, 2, 3],
      ![4, 5, 6, 7],
      ![8, 9, 10, 11],
      ![12, 13, 14, 15]]

/-- A scene-camera object whose host projection formula returns the constant
matrix filled with the output x-resolution, exhibiting the dependence of the
host's camera-projection formula on the ambient render settings that the spec
itself states ("parameterized by output resolution and pixel aspect
ratios"). -/
def cexObj : CamObject :=
  { matrix_world := 1
    calc_matrix_camera := fun rx _ _ _ => Matrix.of fun _ _ => (rx : Scalar) }

/-- Ambient context with x-resolution 100. -/
def ctxa : Context := ⟨⟨⟨100, 100, 1, 1⟩⟩⟩

/-- Ambient context with x-resolution 200, otherwise equal to `ctxa`. -/
def ctxb : Context := ⟨⟨⟨200, 100, 1, 1⟩⟩⟩

/-- A concrete host light at local location (1, 2, 3). -/
def cexLight : BlLight := { matrix_world := 1, location := ![1, 2, 3] }

/-- Sample host vertices with positive, negative, zero and fractional
coordinates. -/
def wVerts : List BlVertex :=
  [⟨![1/2, -3, 0], ![1, 0, -2]⟩, ⟨![-1, 4, 7/3], ![0, -1, 5]⟩]

/-- Sample host mesh without an active UV layer. -/
def wMesh : BlMesh :=
  { matrix_world := seqMat
    data :=
      { vertices := wVerts
        loop_triangles := [⟨![0, 1, 0]⟩]
        uv_layers_active := none } }

/-- The converted mesh `bl2veraMesh` produces from `wMesh`. -/
def wOut : Mesh :=
  { vertices := [![-(1/2), 3, 0], ![1, -4, -(7/3)]]
    normals := [![-1, 0, 2], ![0, 1, -5]]
    indices := [0, 1, 0]
    texcoords := []
    tangentsComputed := false }

/-- Sample host mesh with a single triangle whose vertex indices are
(2, 0, 1). -/
def triMesh : BlMesh :=
  { matrix_world := 1
    data :=
      { vertices := [⟨![0, 0, 0], ![1, 0, 0]⟩, ⟨![1, 0, 0], ![1, 0, 0]⟩,
                     ⟨![0, 1, 0], ![1, 0, 0]⟩]
        loop_triangles := [⟨![2, 0, 1]⟩]
        uv_layers_active := none } }

/-- The converted mesh `bl2veraMesh` produces from `triMesh`. -/
def triOut : Mesh :=
  { vertices := [![0, 0, 0], ![-1, 0, 0], ![0, -1, 0]]
    normals := [![-1, 0, 0], ![-1, 0, 0], ![-1, 0, 0]]
    indices := [2, 0, 1]
    texcoords := []
    tangentsComputed := false }

/-- Sample per-corner UV data with three entries (one more than `uvMesh` has
vertices). -/
def uvData3 : List UVDatum := [⟨![0, 1]⟩, ⟨![1/2, 1/4]⟩, ⟨![9, 9]⟩]

/-- Sample host mesh with two vertices and an active UV layer. -/
def uvMesh : BlMesh :=
  { matrix_world := 1
    data :=
      { vertices := [⟨![0, 0, 0], ![1, 0, 0]⟩, ⟨![1, 2, 3], ![0, 1, 0]⟩]
        loop_triangles := [⟨![0, 1, 0]⟩]
        uv_layers_active := some uvData3 } }

/-- The converted mesh `bl2veraMesh` produces from `uvMesh`. -/
def uvOut : Mesh :=
  { vertices := [![0, 0, 0], ![-1, -2, -3]]
    normals := [![-1, 0, 0], ![0, -1, 0]]
    indices := [0, 1, 0]
    texcoords := [(0, 1), (1/2, 1/4)]
    tangentsComputed := true }

/-- Helper for the identity-camera claims: inverting the identity matrix
yields the identity matrix. -/
lemma inv4_one : inv4 (1 : Mat4) = 1 := by
  simp [inv4, Matrix.det_one, Matrix.adjugate_one]

/-- C1 counterexample: on the matrix with entries 4r+c, the second argument of
the first transform-setter group is entry (2, 0) = 8, not the claimed entry
(0, 2) = 2; and the projection setter receives entry (1, 0) = 4 at the same
position, so the index mapping is not applied identically to both
matrices. -/
theorem C1_counterexample :
    setTransformMatrixArgs seqMat 0 1 ≠ seqMat 0 2 ∧
    setProjectionArgs seqMat 0 1 ≠ setTransformMatrixArgs seqMat 0 1 := by
  constructor <;> decide

/-- C1 amended: for every source view matrix, every source projection matrix
(addressed [row][col]) and every destination row r, the transform setter's
four arguments for row r are view[0][r], view[2][r], view[1][r], view[3][r]
(column r of the source with rows 1 and 2 swapped), while the projection
setter's four arguments for row r are proj[0][r], proj[1][r], proj[2][r],
proj[3][r] (a pure transpose with no swap); no negation is applied; and these
are exactly the arguments `bl2veraCamera` passes in its viewport branch, the
view matrix being inverted first. -/
theorem C1_amended_setter_argument_mapping (v p : Mat4) (r : Fin 4) (ctx : Context)
    (dims : ℕ × ℕ) :
    (setTransformMatrixArgs v r 0 = v 0 r ∧ setTransformMatrixArgs v r 1 = v 2 r ∧
      setTransformMatrixArgs v r 2 = v 1 r ∧ setTransformMatrixArgs v r 3 = v 3 r) ∧
    (setProjectionArgs p r 0 = p 0 r ∧ setProjectionArgs p r 1 = p 1 r ∧
      setProjectionArgs p r 2 = p 2 r ∧ setProjectionArgs p r 3 = p 3 r) ∧
    (bl2veraCamera ctx (CameraSource.regionView3D ⟨v, p⟩) dims).2 =
      some
        { transformArgs := setTransformMatrixArgs (inv4 v)
          projectionArgs := setProjectionArgs p
          viewport := dims
          scale := 1/2 } := by
  refine ⟨?_, ?_, rfl⟩ <;> fin_cases r <;> exact ⟨rfl, rfl, rfl, rfl⟩

/-- C2 counterexample: converting the camera whose source view and projection
matrices are both the identity, re-assembling the emitted projection values
with the inverse column mapping puts a 0 at entry (1, 1), where the identity
matrix has 1 — the re-assembled projection is not the identity. -/
theorem C2_counterexample :
    ((bl2veraCamera ctx0 (CameraSource.regionView3D ⟨1, 1⟩) (100, 100)).2.map
      (fun cam => unswapCols cam.projectionArgs 1 1)) = some 0 ∧
    (1 : Mat4) 1 1 = 1 := by
  constructor <;> rfl

/-- C2 amended: converting the identity camera yields a view transform whose
sixteen emitted values, re-assembled with the inverse column mapping (swap
columns 1 and 2 back), reconstruct the identity; the projection transform's
sixteen emitted values form the identity directly, without re-assembly. -/
theorem C2_amended_identity_reassembly :
    ((bl2veraCamera ctx0 (CameraSource.regionView3D ⟨1, 1⟩) (100, 100)).2.map
      (fun cam => unswapCols cam.transformArgs)) = some 1 ∧
    ((bl2veraCamera ctx0 (CameraSource.regionView3D ⟨1, 1⟩) (100, 100)).2.map
      (fun cam => cam.projectionArgs)) = some 1 := by
  constructor
  · show some (unswapCols (setTransformMatrixArgs (inv4 1))) = some 1
    rw [inv4_one]
    congr 1
    ext i j
    fin_cases i <;> fin_cases j <;> rfl
  · show some (setProjectionArgs 1) = some 1
    congr 1
    ext i j
    fin_cases i <;> fin_cases j <;> rfl

/-- C4 counterexample: for the light at local location (1, 2, 3), the emitted
position's second component is -3 (the negated z-coordinate), not the -2 the
claimed (-x, -y, -z) would give. -/
theorem C4_counterexample :
    (bl2veraLight cexLight).position 1 ≠ -(cexLight.location 1) := by
  decide

/-- C4 amended: for every host light with raw local location (x, y, z), the
emitted Light's position is exactly (-x, -z, -y) — all three axes negated and
the last two swapped — and the light's world matrix is fetched but never
applied (lights with equal locations and different world matrices convert
equally). -/
theorem C4_amended_light_position (W W2 : Mat4) (loc : Vec3) :
    (bl2veraLight ⟨W, loc⟩).position 0 = -(loc 0) ∧
    (bl2veraLight ⟨W, loc⟩).position 1 = -(loc 2) ∧
    (bl2veraLight ⟨W, loc⟩).position 2 = -(loc 1) ∧
    bl2veraLight ⟨W, loc⟩ = bl2veraLight ⟨W2, loc⟩ :=
  ⟨rfl, rfl, rfl, rfl⟩

/-- C7: for every unrecognized camera source, `bl2veraCamera` returns the
absent result (no Camera value) and reports the invalid input, for any
ambient context and any viewport dimensions. -/
theorem C7_invalid_source_absent (ctx : Context) (text : String) (dims : ℕ × ℕ) :
    (bl2veraCamera ctx (CameraSource.other text) dims).2 = none ∧
    (bl2veraCamera ctx (CameraSource.other text) dims).1 =
      ["INVALID CAMERA SOURCE: " ++ text] :=
  ⟨rfl, rfl⟩

/-- C8: for every host, path argument and initial open-handle state,
`file_exist` returns true exactly when expanding then opening the path
succeeds, returns false on any failure (expansion failure or open failure
alike, with no distinction between causes), and in both outcomes leaves the
open-handle state exactly as it found it. -/
theorem C8_file_exist_contract (host : HostFS) (filename : String)
    (openHandles : List ℕ) :
    (file_exist host filename openHandles).1 = openSucceeds host filename ∧
    (file_exist host filename openHandles).2 = openHandles := by
  unfold file_exist openSucceeds
  cases habs : host.abspath filename with
  | error e => exact ⟨rfl, rfl⟩
  | ok p =>
      simp only [Except.bind]
      cases hop : host.openRead p with
      | error e => exact ⟨rfl, rfl⟩
      | ok h => exact ⟨rfl, by simp⟩

/-- C9 counterexample: the scene-camera branch of `bl2veraCamera` reads the
ambient render settings (bpy.context.scene.render): with the same source
object and the same viewport dimensions, two calls under contexts differing
only in x-resolution produce different cameras. -/
theorem C9_counterexample :
    bl2veraCamera ctxa (CameraSource.object cexObj) (10, 10) ≠
      bl2veraCamera ctxb (CameraSource.object cexObj) (10, 10) := fun h =>
  absurd (congrArg (fun out => out.2.map fun cam => cam.projectionArgs 0 0) h)
    (by decide)

/-- C9 amended: the mesh and light converters are deterministic functions of
their arguments alone, and the camera converter's viewport and
invalid-source branches do not depend on the ambient context; only the
scene-camera branch additionally reads the global render settings, and no
state is retained between calls (every call is a pure function of its
arguments and the ambient context). -/
theorem C9_amended_determinism (ctx1 ctx2 : Context) (r : RegionView3D)
    (text : String) (dims : ℕ × ℕ) (bl_mesh : BlMesh) (bl_light : BlLight) :
    bl2veraCamera ctx1 (CameraSource.regionView3D r) dims =
      bl2veraCamera ctx2 (CameraSource.regionView3D r) dims ∧
    bl2veraCamera ctx1 (CameraSource.other text) dims =
      bl2veraCamera ctx2 (CameraSource.other text) dims ∧
    bl2veraMesh bl_mesh = bl2veraMesh bl_mesh ∧
    bl2veraLight bl_light = bl2veraLight bl_light :=
  ⟨rfl, rfl, rfl, rfl⟩

/-- Helper: the vertex loop appends, for each host vertex in order, its
coordinates negated on all three axes to `vertices` and its normal negated on
all three axes to `normals`, touching nothing else. -/
lemma foldl_vertexStep (vs : List BlVertex) (m : Mesh) :
    vs.foldl vertexStep m =
      { m with
        vertices := m.vertices ++ vs.map (fun v => ![-(v.co 0), -(v.co 1), -(v.co 2)])
        normals := m.normals ++ vs.map (fun v => ![-(v.normal 0), -(v.normal 1), -(v.normal 2)]) } := by
  induction vs generalizing m with
  | nil => simp
  | cons v vs ih =>
      simp [List.foldl_cons, ih, vertexStep, Mesh.addVertex, Mesh.addNormal]

/-- Helper: the triangle loop appends, for each loop triangle in order, its
three vertex indices in order to `indices`, touching nothing else. -/
lemma foldl_triStep (tris : List LoopTriangle) (m : Mesh) :
    tris.foldl triStep m =
      { m with
        indices := m.indices ++
          tris.flatMap (fun t => [t.vertices 0, t.vertices 1, t.vertices 2]) } := by
  induction tris generalizing m with
  | nil => simp
  | cons t ts ih =>
      simp [List.foldl_cons, ih, triStep, Mesh.addIndex]

/-- Helper: when every index it visits is in range, the texcoord loop
succeeds and appends, for each index in order, the two components of the UV
entry at that index, touching nothing else. -/
lemma foldlM_texStep_some (uvdata : List UVDatum) (is : List ℕ) (m : Mesh)
    (h : ∀ i ∈ is, i < uvdata.length) :
    is.foldlM (texStep uvdata) m =
      some
        { m with
          texcoords := m.texcoords ++
            is.map (fun i => ((uvdata.getD i uv0).uv 0, (uvdata.getD i uv0).uv 1)) } := by
  induction is generalizing m with
  | nil => simp
  | cons i is ih =>
      have hi : i < uvdata.length := h i (List.mem_cons_self i is)
      have hstep : texStep uvdata m i =
          some (m.addTexCoord ((uvdata.getD i uv0).uv 0) ((uvdata.getD i uv0).uv 1)) := by
        simp [texStep, List.getElem?_eq_getElem hi, List.getD_eq_getElem uvdata uv0 hi]
      rw [List.foldlM_cons, hstep]
      show is.foldlM (texStep uvdata)
          (m.addTexCoord ((uvdata.getD i uv0).uv 0) ((uvdata.getD i uv0).uv 1)) = _
      rw [ih _ (fun j hj => h j (List.mem_cons_of_mem i hj))]
      simp [Mesh.addTexCoord]

/-- Helper: a successful run of the texcoord loop never changes the vertex,
normal or index lists. -/
lemma foldlM_texStep_fields (uvdata : List UVDatum) (is : List ℕ) (m m2 : Mesh)
    (h : is.foldlM (texStep uvdata) m = some m2) :
    m2.vertices = m.vertices ∧ m2.normals = m.normals ∧ m2.indices = m.indices := by
  induction is generalizing m with
  | nil =>
      simp only [List.foldlM_nil, Option.pure_def, Option.some_inj] at h
      subst h
      exact ⟨rfl, rfl, rfl⟩
  | cons i is ih =>
      rw [List.foldlM_cons] at h
      cases hstep : texStep uvdata m i with
      | none => rw [hstep] at h; simp at h
      | some m1 =>
          rw [hstep] at h
          have h1 : is.foldlM (texStep uvdata) m1 = some m2 := h
          obtain ⟨d, -, hd⟩ := Option.map_eq_some'.mp hstep
          obtain ⟨hv, hn, hi⟩ := ih m1 h1
          subst hd
          exact ⟨hv, hn, hi⟩

/-- Helper: reading indices 0..n-1 of a list of length at least n collects
exactly its first n entries. -/
lemma range_map_getD_take (l : List UVDatum) (n : ℕ) (h : n ≤ l.length) :
    (List.range n).map (fun i => l.getD i uv0) = l.take n := by
  induction n generalizing l with
  | zero => simp
  | succ k ih =>
      cases l with
      | nil => simp at h
      | cons d tail =>
          rw [List.range_succ_eq_map, List.map_cons, List.map_map]
          have hc : ((fun i => (d :: tail).getD i uv0) ∘ (· + 1)) =
              fun i => tail.getD i uv0 := rfl
          rw [hc, ih tail (Nat.le_of_succ_le_succ h)]
          simp

/-- Helper: whenever `bl2veraMesh` returns a mesh, its vertex list is the
host's vertex list with every coordinate negated, its normal list is the
host's normals with every component negated, and its index list is the
concatenation of the host's loop triangles' index triples in order. -/
lemma bl2veraMesh_core (bl_mesh : BlMesh) (m : Mesh)
    (h : bl2veraMesh bl_mesh = some m) :
    m.vertices = bl_mesh.data.vertices.map (fun v => ![-(v.co 0), -(v.co 1), -(v.co 2)]) ∧
    m.normals = bl_mesh.data.vertices.map (fun v => ![-(v.normal 0), -(v.normal 1), -(v.normal 2)]) ∧
    m.indices = bl_mesh.data.loop_triangles.flatMap
      (fun t => [t.vertices 0, t.vertices 1, t.vertices 2]) := by
  simp only [bl2veraMesh, foldl_vertexStep, foldl_triStep, Mesh.new,
    List.nil_append] at h
  cases huv : bl_mesh.data.uv_layers_active with
  | none =>
      rw [huv] at h
      simp only [Option.some_inj] at h
      subst h
      exact ⟨rfl, rfl, rfl⟩
  | some uvdata =>
      rw [huv] at h
      simp only [Option.map_eq_some'] at h
      obtain ⟨m1, hm1, hmc⟩ := h
      obtain ⟨hv, hn, hi⟩ := foldlM_texStep_fields _ _ _ _ hm1
      subst hmc
      exact ⟨hv, hn, hi⟩

/-- C3: whenever `bl2veraMesh` returns a mesh, every emitted position is the
host vertex's raw local-space coordinates negated on all three axes and every
emitted normal is the raw local-space normal negated on all three axes; the
host's world transform is never applied (replacing it changes nothing); and
negating the emitted values componentwise recovers the original coordinates
and normals exactly. -/
theorem C3_vertex_normal_negation (bl_mesh : BlMesh) (W : Mat4) (m : Mesh)
    (h : bl2veraMesh bl_mesh = some m) :
    m.vertices = bl_mesh.data.vertices.map (fun v => ![-(v.co 0), -(v.co 1), -(v.co 2)]) ∧
    m.normals = bl_mesh.data.vertices.map (fun v => ![-(v.normal 0), -(v.normal 1), -(v.normal 2)]) ∧
    bl2veraMesh { bl_mesh with matrix_world := W } = some m ∧
    m.vertices.map (fun p => ![-(p 0), -(p 1), -(p 2)]) = bl_mesh.data.vertices.map BlVertex.co ∧
    m.normals.map (fun p => ![-(p 0), -(p 1), -(p 2)]) = bl_mesh.data.vertices.map BlVertex.normal := by
  obtain ⟨hv, hn, -⟩ := bl2veraMesh_core bl_mesh m h
  have hco : ((fun p : Vec3 => ![-(p 0), -(p 1), -(p 2)]) ∘
      (fun v : BlVertex => ![-(v.co 0), -(v.co 1), -(v.co 2)])) = BlVertex.co := by
    funext v i
    fin_cases i <;> simp
  have hno : ((fun p : Vec3 => ![-(p 0), -(p 1), -(p 2)]) ∘
      (fun v : BlVertex => ![-(v.normal 0), -(v.normal 1), -(v.normal 2)])) = BlVertex.normal := by
    funext v i
    fin_cases i <;> simp
  refine ⟨hv, hn, h, ?_, ?_⟩
  · rw [hv, List.map_map, hco]
  · rw [hn, List.map_map, hno]

/-- C3 witness: the two-vertex sample mesh `wMesh`, whose coordinates are
positive, negative, zero and fractional, converts to `wOut`, and `wOut`
satisfies all five parts of the negation property. -/
theorem C3_vertex_normal_negation_witness :
    bl2veraMesh wMesh = some wOut ∧
    (wOut.vertices = wMesh.data.vertices.map (fun v => ![-(v.co 0), -(v.co 1), -(v.co 2)]) ∧
      wOut.normals = wMesh.data.vertices.map (fun v => ![-(v.normal 0), -(v.normal 1), -(v.normal 2)]) ∧
      bl2veraMesh { wMesh with matrix_world := (1 : Mat4) } = some wOut ∧
      wOut.vertices.map (fun p => ![-(p 0), -(p 1), -(p 2)]) = wMesh.data.vertices.map BlVertex.co ∧
      wOut.normals.map (fun p => ![-(p 0), -(p 1), -(p 2)]) = wMesh.data.vertices.map BlVertex.normal) :=
  ⟨by rfl, C3_vertex_normal_negation wMesh 1 wOut (by rfl)⟩

/-- C5: whenever `bl2veraMesh` returns a mesh, the emitted index list is
exactly the host's triangulated faces' vertex-index triples concatenated in
the order supplied, with no sorting and no winding flip. -/
theorem C5_index_order_preserved (bl_mesh : BlMesh) (m : Mesh)
    (h : bl2veraMesh bl_mesh = some m) :
    m.indices = bl_mesh.data.loop_triangles.flatMap
      (fun t => [t.vertices 0, t.vertices 1, t.vertices 2]) :=
  (bl2veraMesh_core bl_mesh m h).2.2

/-- C5 witness: the sample mesh with the single triangle (2, 0, 1) converts
to `triOut`, whose index list is exactly [2, 0, 1]. -/
theorem C5_index_order_preserved_witness :
    bl2veraMesh triMesh = some triOut ∧
    triOut.indices = triMesh.data.loop_triangles.flatMap
      (fun t => [t.vertices 0, t.vertices 1, t.vertices 2]) :=
  ⟨by rfl, C5_index_order_preserved triMesh triOut (by rfl)⟩

/-- C6: for a mesh with an active UV layer holding at least as many entries
as there are vertices, conversion succeeds with exactly one texcoord per
vertex index in order 0..N-1 (N the number of emitted vertices), each read
from the UV layer's per-corner data at that same linear index, and the
tangent-space computation is triggered on the resulting mesh. -/
theorem C6_uv_per_vertex (bl_mesh : BlMesh) (uvdata : List UVDatum) (m : Mesh)
    (h1 : bl_mesh.data.uv_layers_active = some uvdata)
    (h2 : bl_mesh.data.vertices.length ≤ uvdata.length)
    (h : bl2veraMesh bl_mesh = some m) :
    m.texcoords.length = bl_mesh.data.vertices.length ∧
    m.texcoords = (uvdata.take bl_mesh.data.vertices.length).map
      (fun d => (d.uv 0, d.uv 1)) ∧
    m.tangentsComputed = true := by
  simp only [bl2veraMesh, foldl_vertexStep, foldl_triStep, Mesh.new,
    List.nil_append, h1, Mesh.getVerticesTotal, List.length_map] at h
  rw [foldlM_texStep_some uvdata _ _
    (fun i hi => lt_of_lt_of_le (List.mem_range.mp hi) h2)] at h
  simp only [Option.map_some', Option.some_inj] at h
  subst h
  have hmap : (List.range bl_mesh.data.vertices.length).map
      (fun i => ((uvdata.getD i uv0).uv 0, (uvdata.getD i uv0).uv 1)) =
      (uvdata.take bl_mesh.data.vertices.length).map (fun d => (d.uv 0, d.uv 1)) := by
    have hc : (fun i => ((uvdata.getD i uv0).uv 0, (uvdata.getD i uv0).uv 1)) =
        ((fun d : UVDatum => (d.uv 0, d.uv 1)) ∘ (fun i => uvdata.getD i uv0)) := rfl
    rw [hc, ← List.map_map, range_map_getD_take uvdata _ h2]
  refine ⟨?_, ?_, rfl⟩
  · show ((List.range bl_mesh.data.vertices.length).map _).length = _
    rw [hmap]
    simp [List.length_take, Nat.min_eq_left h2]
  · show ([] : List (Scalar × Scalar)) ++ _ = _
    rw [List.nil_append, hmap]

/-- C6 witness: the two-vertex sample mesh `uvMesh`, whose active UV layer
holds three entries, converts to `uvOut`, which carries exactly two texcoords
taken in order from the first two UV entries and has its tangent computation
triggered. -/
theorem C6_uv_per_vertex_witness :
    uvMesh.data.uv_layers_active = some uvData3 ∧
    uvMesh.data.vertices.length ≤ uvData3.length ∧
    bl2veraMesh uvMesh = some uvOut ∧
    (uvOut.texcoords.length = uvMesh.data.vertices.length ∧
      uvOut.texcoords = (uvData3.take uvMesh.data.vertices.length).map
        (fun d => (d.uv 0, d.uv 1)) ∧
      uvOut.tangentsComputed = true) :=
  ⟨rfl, by decide, by rfl,
    C6_uv_per_vertex uvMesh uvData3 uvOut rfl (by decide) (by rfl)⟩

/-- C10: for every mesh without an active UV layer, `bl2veraMesh` succeeds,
emits no texcoord entries, does not trigger the tangent-space computation,
and still emits exactly the negated vertices, negated normals and in-order
indices it emits in general. -/
theorem C10_no_uv_layer (W : Mat4) (vs : List BlVertex) (tris : List LoopTriangle) :
    bl2veraMesh ⟨W, ⟨vs, tris, none⟩⟩ =
      some
        { vertices := vs.map (fun v => ![-(v.co 0), -(v.co 1), -(v.co 2)])
          normals := vs.map (fun v => ![-(v.normal 0), -(v.normal 1), -(v.normal 2)])
          indices := tris.flatMap (fun t => [t.vertices 0, t.vertices 1, t.vertices 2])
          texcoords := []
          tangentsComputed := false } := by
  simp only [bl2veraMesh, foldl_vertexStep, foldl_triStep, Mesh.new, List.nil_append]
